import Mathlib

/-!
Shallow embedding of the appointment scheduling core of the
`api_express_mysql_produccion` service (controllers/citasController.js and
its routes).  Times are modeled as integer minutes: `fecha_inicio` is the
number of minutes from an arbitrary origin (for the slot generator, minutes
since the midnight of the queried day), which is exact for the SQL
`DATE_ADD(..., INTERVAL n MINUTE)` arithmetic and for the JavaScript
`Date.getTime()` arithmetic the code performs (all in whole minutes).
Database rows are lists of records, SQL `SELECT ... WHERE` is `List.filter`
or `List.find?`, and each HTTP handler is a pure function from the database
state and the request to its outcome.
-/

namespace Citas

/-- A row of the `citas` table (columns used by the controller). -/
structure Cita where
  id : Nat
  mascota_id : Nat
  propietario_id : Nat
  veterinario_id : Option Nat
  tipo_consulta : String
  motivo : Option String
  fecha_inicio : Int
  duracion_min : Int
  estado : String
  created_by : Option Nat
deriving Repr, DecidableEq

/-- A row of the `mascotas` table (columns used by the controller). -/
structure Mascota where
  id : Nat
  owner_id : Nat
deriving Repr, DecidableEq

/-- A row of the `usuarios` table (columns used by the controller). -/
structure Usuario where
  id : Nat
  role : String
deriving Repr, DecidableEq

/-- The relational store visible to `citasController`. -/
structure DB where
  mascotas : List Mascota
  usuarios : List Usuario
  citas : List Cita
deriving Repr, DecidableEq

/-- The authenticated caller: `req.user = { userId, role }`. -/
structure Actor where
  userId : Nat
  role : String
deriving Repr, DecidableEq

/-- JavaScript `toLowerCase()`.  Written over the character list (rather
than `String.toLower`, whose `mapAux` recursion the kernel cannot unfold);
`Char.toLower` agrees with `toLowerCase()` on the ASCII catalog keys. -/
def strLower (s : String) : String := ⟨s.data.map Char.toLower⟩

/-- JavaScript truthiness for an optional numeric id
(`undefined`/`null`/`0` are falsy). -/
def truthyN : Option Nat → Bool
  | some n => n != 0
  | none => false

/-- JavaScript `v || dflt` for an optional string (empty string is falsy). -/
def truthyStr (v : Option String) (dflt : String) : String :=
  match v with
  | some s => if s = "" then dflt else s
  | none => dflt

/-- JavaScript `motivo || null`. -/
def motivoOrNull (v : Option String) : Option String :=
  match v with
  | some s => if s = "" then none else some s
  | none => none

/-- The `AND c.id != ?` clause that `_hasOverlap` appends when an
`excludeId` is supplied (`if (excludeId) { sql += " AND c.id != ?" }`). -/
def notExcluded (excludeId : Option Nat) (c : Cita) : Bool :=
  match excludeId with
  | some e => c.id != e
  | none => true

/-- Embeds `_hasOverlap(veterinario_id, fecha_inicio, duracion_min,
excludeId = null, bufferMin = 10)` of `citasController.js`.  The guard
`if (!veterinario_id) return false` is the `none` case (a row id is never
`0`).  The SQL row test is
`c.veterinario_id = ? AND (? < DATE_ADD(DATE_ADD(c.fecha_inicio, INTERVAL
c.duracion_min MINUTE), INTERVAL ? MINUTE)) AND (c.fecha_inicio <
DATE_ADD(DATE_ADD(?, INTERVAL ? MINUTE), INTERVAL ? MINUTE))` with the
optional exclusion clause; note the query has no filter on `c.estado`. -/
def hasOverlap (citas : List Cita) (veterinario_id : Option Nat)
    (fecha_inicio : Int) (duracion_min : Int) (excludeId : Option Nat)
    (bufferMin : Int) : Bool :=
  match veterinario_id with
  | none => false
  | some v =>
    citas.any (fun c =>
      c.veterinario_id == some v &&
      decide (fecha_inicio < c.fecha_inicio + c.duracion_min + bufferMin) &&
      decide (c.fecha_inicio < fecha_inicio + duracion_min + bufferMin) &&
      notExcluded excludeId c)

/-- `overlaps(aStart, aEnd, bStart, bEnd)`: half-open interval overlap. -/
def overlaps (aStart aEnd bStart bEnd : Int) : Bool :=
  decide (aStart < bEnd) && decide (bStart < aEnd)

/-- `parseHHMM("hh:mm")` = `hh * 60 + mm`, applied to the window literals. -/
def parseHHMM (hh mm : Nat) : Int := (hh : Int) * 60 + mm

/-- `CLINIC_OPEN = "07:00"` in minutes. -/
def clinicOpen : Int := parseHHMM 7 0

/-- `CLINIC_CLOSE = "17:00"` in minutes. -/
def clinicClose : Int := parseHHMM 17 0

/-- `getDurationForTipo(t)`: the string-keyed duration table with the
`|| 30` fallback (no table value is `0`, so the fallback fires exactly on
unknown keys). -/
def getDurationForTipo (t : String) : Int :=
  let low := strLower t
  if low = "consulta general" then 30
  else if low = "vacunacion" then 20
  else if low = "urgencia" then 60
  else if low = "cirugia" then 120
  else if low = "peluqueria" then 45
  else if low = "control" then 20
  else if low = "desparacitacion" then 15
  else 30

/-- An operating window `{ from, to }`, its two `"hh:mm"` fields already
run through `parseHHMM`. -/
structure Window where
  wfrom : Int
  wto : Int
deriving Repr, DecidableEq

/-- `getWindowsForTipo(t)`: the per-type operating windows switch. -/
def getWindowsForTipo (t : String) : List Window :=
  let low := strLower t
  if low = "vacunacion" then [⟨parseHHMM 8 0, parseHHMM 12 30⟩, ⟨parseHHMM 14 0, parseHHMM 17 0⟩]
  else if low = "cirugia" then [⟨parseHHMM 8 0, parseHHMM 12 0⟩]
  else if low = "peluqueria" then [⟨parseHHMM 9 0, parseHHMM 16 0⟩]
  else if low = "urgencia" then [⟨parseHHMM 7 0, parseHHMM 17 0⟩]
  else if low = "control" then [⟨parseHHMM 7 0, parseHHMM 17 0⟩]
  else if low = "desparacitacion" then [⟨parseHHMM 7 0, parseHHMM 17 0⟩]
  else [⟨parseHHMM 7 0, parseHHMM 17 0⟩]

/-- The `while (t <= lastStartMin)` cursor walk of `generateSlotsNode`,
with `step = 15`: on a conflict with an existing interval the cursor
advances by the step, on acceptance the slot start is emitted and the
cursor advances by the full duration.  The walk is written with a fuel
argument for structural recursion; `slotWalk` below supplies fuel
`(lastStart + 1 - t).toNat`, which bounds the number of iterations because
every iteration advances `t` by at least one minute (the duration is a
catalog value, at least 15).  The `isNaN(start.getTime())` guard never
fires for a well-formed date string and is omitted. -/
def slotLoop (citas : List (Int × Int)) (d lastStart : Int) :
    Nat → Int → List Int
  | 0, _ => []
  | fuel + 1, t =>
    if t ≤ lastStart then
      if citas.any (fun c => overlaps t (t + d) c.1 c.2) then
        slotLoop citas d lastStart fuel (t + 15)
      else
        t :: slotLoop citas d lastStart fuel (t + d)
    else []

/-- The cursor walk from `t`, with enough fuel to run to completion. -/
def slotWalk (citas : List (Int × Int)) (d lastStart t : Int) : List Int :=
  slotLoop citas d lastStart (lastStart + 1 - t).toNat t

/-- One window of the `for (const w of windows)` loop of
`generateSlotsNode`: clip to clinic hours, compute
`lastStartMin = windowToMin - durationMin`, yield nothing when
`lastStartMin < windowFromMin`, otherwise run the cursor walk from
`windowFromMin`. -/
def slotsForWindow (citas : List (Int × Int)) (d : Int) (w : Window) :
    List Int :=
  let windowFromMin := max clinicOpen w.wfrom
  let windowToMin := min clinicClose w.wto
  let lastStartMin := windowToMin - d
  if lastStartMin < windowFromMin then []
  else slotWalk citas d lastStartMin windowFromMin

/-- The `slotsByVet[vid].sort((a,b) => a.startIsoLocal.localeCompare(b.startIsoLocal))`
step: on a single day the ISO-local strings compare exactly like the slot
start minutes, so sorting is by `≤` on the minutes. -/
def sortSlots (l : List Int) : List Int :=
  List.insertionSort (fun a b => a ≤ b) l

/-- The per-veterinarian slot list of `generateSlotsNode`: all windows of
the type walked in order, then sorted chronologically. -/
def slotsForVet (tipo : String) (vetCitas : List (Int × Int)) : List Int :=
  let durationMin := getDurationForTipo tipo
  sortSlots ((getWindowsForTipo tipo).flatMap
    (fun w => slotsForWindow vetCitas durationMin w))

/-- The `citasByVet` grouping of `generateSlotsNode` looked up at one
veterinarian id: the existing appointments keyed under `String(vid)`
(a row with `veterinario_id` null is keyed under `"null"` and never
matches), each mapped to its `[start, start + duracion_min)` interval. -/
def vetCitasIntervals (existing : List Cita) (vid : Nat) : List (Int × Int) :=
  (existing.filter (fun c => c.veterinario_id == some vid)).map
    (fun c => (c.fecha_inicio, c.fecha_inicio + c.duracion_min))

/-- `generateSlotsNode(dateStr, tipoStr, vetList, existingCitas)` restricted
to its slot output: the association of each veterinarian of `vetList` with
its ordered slot starts.  The date string is assumed well-formed (the
`!dateStr` guard and `isNaN` parse guard never fire then), and `tipoStr`
is never empty because `getSlots` defaults it to `'consulta general'`. -/
def generateSlotsNode (tipo : String) (vetList : List Nat)
    (existing : List Cita) : List (Nat × List Int) :=
  vetList.map (fun v => (v, slotsForVet tipo (vetCitasIntervals existing v)))

/-- The `GET /citas/slots` handler core: the day's appointment rows are
fetched with `WHERE DATE(fecha_inicio) = ? AND estado != 'cancelada'`
(`dayCitas` stands for the rows of the requested day) and handed to
`generateSlotsNode`. -/
def getSlots (dayCitas : List Cita) (tipo : String) (vets : List Nat) :
    List (Nat × List Int) :=
  generateSlotsNode tipo vets
    (dayCitas.filter (fun c => c.estado != "cancelada"))

/-- The body of `POST /citas` as seen by the controller, already past the
route's `express-validator` shape checks.  `none` is an absent field;
`fecha_inicio` is the parsed instant in minutes (an unparseable string is
out of scope for the claims below, which all supply a valid instant). -/
structure CreateReq where
  mascota_id : Option Nat
  propietario_id : Option Nat
  veterinario_id : Option Nat
  tipo_consulta : Option String
  motivo : Option String
  fecha_inicio : Option Int
  duracion_min : Option Int
  buffer_min : Option Int
deriving Repr, DecidableEq

/-- Outcome of the `create` handler: HTTP 400 / 403 / 409 / 201
respectively; `created` carries the row the `INSERT` persists. -/
inductive CreateResult where
  | badRequest (msg : String)
  | forbidden (msg : String)
  | conflict
  | created (c : Cita)
deriving Repr, DecidableEq

/-- The `if (veterinario_id) { ... }` block of `create`: look the user up,
require `role.toLowerCase() === 'admin'`, and produce `vetIdToUse`. -/
def resolveVetCreate (db : DB) (veterinario_id : Option Nat) :
    Except String (Option Nat) :=
  if truthyN veterinario_id then
    match db.usuarios.find? (fun u => u.id == veterinario_id.getD 0) with
    | none => .error "Veterinario no encontrado"
    | some u =>
      if strLower u.role != "admin" then
        .error "El usuario seleccionado no es un veterinario (role admin)"
      else .ok (some (veterinario_id.getD 0))
  else .ok none

/-- Embeds the `create` handler of `citasController.js` (the buffered
revision), after `validationResult` passed: required fields, pet lookup
and ownership, owner self-booking permission, veterinarian resolution,
date parse, duration defaulting (flat 30) and positivity check, buffer
defaulting (10, unvalidated), the `_hasOverlap` check when a veterinarian
is assigned, and the `INSERT` row with `estado = 'pendiente'`.
`newId` is the auto-increment id the insert would receive. -/
def create (db : DB) (user : Actor) (req : CreateReq) (newId : Nat) :
    CreateResult :=
  if !(truthyN req.mascota_id && truthyN req.propietario_id
        && req.fecha_inicio.isSome) then
    .badRequest "mascota_id, propietario_id y fecha_inicio son requeridos"
  else
    match db.mascotas.find? (fun m => m.id == req.mascota_id.getD 0) with
    | none => .badRequest "Mascota no existe"
    | some m =>
      if m.owner_id != req.propietario_id.getD 0 then
        .badRequest "La mascota no pertenece al propietario indicado"
      else if user.role == "propietario"
          && user.userId != req.propietario_id.getD 0 then
        .forbidden "No autorizado para crear cita para otro propietario"
      else
        match resolveVetCreate db req.veterinario_id with
        | .error msg => .badRequest msg
        | .ok vetIdToUse =>
          let fecha := req.fecha_inicio.getD 0
          let durMin := match req.duracion_min with
            | some n => n
            | none => 30
          if durMin ≤ 0 then .badRequest "duracion_min inválida"
          else
            let bufferMin := match req.buffer_min with
              | some b => b
              | none => 10
            if hasOverlap db.citas vetIdToUse fecha durMin none bufferMin then
              .conflict
            else
              .created {
                id := newId
                mascota_id := req.mascota_id.getD 0
                propietario_id := req.propietario_id.getD 0
                veterinario_id := vetIdToUse
                tipo_consulta := truthyStr req.tipo_consulta "consulta general"
                motivo := motivoOrNull req.motivo
                fecha_inicio := fecha
                duracion_min := durMin
                estado := "pendiente"
                created_by := if user.userId != 0 then some user.userId else none }

/-- The body of `PUT /citas/:id`.  `veterinario_id` distinguishes the three
JavaScript cases: field absent (`none`), explicit `null`/`''`
(`some none`), and a proposed id (`some (some v)`). -/
structure UpdateReq where
  mascota_id : Option Nat
  propietario_id : Option Nat
  veterinario_id : Option (Option Nat)
  tipo_consulta : Option String
  motivo : Option String
  fecha_inicio : Option Int
  duracion_min : Option Int
  buffer_min : Option Int
  estado : Option String
deriving Repr, DecidableEq

/-- Outcome of the `update` handler: 404 / 400 / 403 / 409 / 200;
`updated` carries the merged row the `UPDATE ... COALESCE` persists. -/
inductive UpdateResult where
  | notFound
  | badRequest (msg : String)
  | forbidden (msg : String)
  | conflict
  | updated (c : Cita)
deriving Repr, DecidableEq

/-- The `if (typeof veterinario_id !== 'undefined') { ... }` block of
`update`, producing `vetToUse`. -/
def resolveVetUpdate (db : DB) (existingVet : Option Nat)
    (veterinario_id : Option (Option Nat)) : Except String (Option Nat) :=
  match veterinario_id with
  | none => .ok existingVet
  | some none => .ok none
  | some (some v) =>
    match db.usuarios.find? (fun u => u.id == v) with
    | none => .error "Veterinario no encontrado"
    | some u =>
      if strLower u.role != "admin" then
        .error "El usuario seleccionado no es un veterinario (role admin)"
      else .ok (some v)

/-- Embeds the `update` handler of `citasController.js` (the buffered
revision): fetch the existing row, owner permission, the
mascota/propietario coherence check when either is provided, veterinarian
resolution, date and duration fallback to the existing row, duration
positivity, buffer defaulting (10, unvalidated), `_hasOverlap` with
`excludeId = id`, then the field merge the `UPDATE ... COALESCE(?, col)`
statement performs (`estado = COALESCE(estado || null, estado)` persists
any truthy string without checking it against the known states). -/
def update (db : DB) (user : Actor) (id : Nat) (req : UpdateReq) :
    UpdateResult :=
  match db.citas.find? (fun c => c.id == id) with
  | none => .notFound
  | some existing =>
    if user.role == "propietario" && user.userId != existing.propietario_id then
      .forbidden "No autorizado para editar esta cita"
    else
      let mId := if truthyN req.mascota_id then req.mascota_id.getD 0
                 else existing.mascota_id
      let pId := if truthyN req.propietario_id then req.propietario_id.getD 0
                 else existing.propietario_id
      let coherence : Option String :=
        if truthyN req.mascota_id || truthyN req.propietario_id then
          match db.mascotas.find? (fun m => m.id == mId) with
          | none => some "Mascota no existe"
          | some m =>
            if m.owner_id != pId then
              some "La mascota no pertenece al propietario indicado"
            else none
        else none
      match coherence with
      | some msg => .badRequest msg
      | none =>
        match resolveVetUpdate db existing.veterinario_id req.veterinario_id with
        | .error msg => .badRequest msg
        | .ok vetToUse =>
          let fecha := match req.fecha_inicio with
            | some f => f
            | none => existing.fecha_inicio
          let durMin := match req.duracion_min with
            | some n => n
            | none => existing.duracion_min
          if durMin ≤ 0 then .badRequest "duracion_min inválida"
          else
            let bufferMin := match req.buffer_min with
              | some b => b
              | none => 10
            if hasOverlap db.citas vetToUse fecha durMin (some id) bufferMin then
              .conflict
            else
              .updated { existing with
                mascota_id := mId
                propietario_id := pId
                veterinario_id := vetToUse
                tipo_consulta := truthyStr req.tipo_consulta existing.tipo_consulta
                motivo := match req.motivo with
                  | some s => if s = "" then existing.motivo else some s
                  | none => existing.motivo
                fecha_inicio := fecha
                duracion_min := durMin
                estado := truthyStr req.estado existing.estado }

/-- Outcome of the status endpoints (`confirm`, `complete`,
`changeStatus`): 400 / 404 / 403 / 200; `updated` carries the row after
the `UPDATE citas SET estado = ?`. -/
inductive StatusResult where
  | badRequest
  | notFound
  | forbidden
  | updated (c : Cita)
deriving Repr, DecidableEq

/-- The permission test shared by the status endpoints: admin, or the
owning `propietario`. -/
def canTouch (user : Actor) (cita : Cita) : Bool :=
  user.role == "admin"
  || (user.role == "propietario" && user.userId == cita.propietario_id)

/-- Embeds `POST /citas/:id/confirm`: fetch, permission check, then
`UPDATE citas SET estado = 'confirmada'` unconditionally. -/
def confirm (db : DB) (user : Actor) (id : Nat) : StatusResult :=
  match db.citas.find? (fun c => c.id == id) with
  | none => .notFound
  | some cita =>
    if !canTouch user cita then .forbidden
    else .updated { cita with estado := "confirmada" }

/-- Embeds `POST /citas/:id/complete`: fetch, permission check, then
`UPDATE citas SET estado = 'completada'` unconditionally. -/
def complete (db : DB) (user : Actor) (id : Nat) : StatusResult :=
  match db.citas.find? (fun c => c.id == id) with
  | none => .notFound
  | some cita =>
    if !canTouch user cita then .forbidden
    else .updated { cita with estado := "completada" }

/-- The `allowed` label list of `changeStatus`. -/
def allowedEstados : List String :=
  ["pendiente", "confirmada", "completada", "cancelada"]

/-- Embeds `PATCH /citas/:id/status`: reject a missing or unknown label
(the only validation), fetch, permission check, then
`UPDATE citas SET estado = ?` with the requested label — the current
status is never consulted. -/
def changeStatus (db : DB) (user : Actor) (id : Nat)
    (estado : Option String) : StatusResult :=
  match estado with
  | none => .badRequest
  | some e =>
    if !(allowedEstados.contains e) then .badRequest
    else
      match db.citas.find? (fun c => c.id == id) with
      | none => .notFound
      | some cita =>
        if !canTouch user cita then .forbidden
        else .updated { cita with estado := e }

/-! Concrete fixtures used by the scenario theorems below. -/

/-- A 10:00 appointment (minute 600) of 30 minutes for veterinarian 1. -/
def citaDiez : Cita :=
  { id := 7, mascota_id := 1, propietario_id := 2, veterinario_id := some 1,
    tipo_consulta := "consulta general", motivo := none, fecha_inicio := 600,
    duracion_min := 30, estado := "pendiente", created_by := none }

/-- A cancelled 10:00 appointment of 30 minutes for veterinarian 5. -/
def citaCancelada : Cita :=
  { id := 8, mascota_id := 1, propietario_id := 2, veterinario_id := some 5,
    tipo_consulta := "consulta general", motivo := none, fecha_inicio := 600,
    duracion_min := 30, estado := "cancelada", created_by := none }

/-- An administrator caller. -/
def adminUser : Actor := { userId := 3, role := "admin" }

/-- A completed appointment, id 1. -/
def citaCompletada : Cita :=
  { id := 1, mascota_id := 1, propietario_id := 2, veterinario_id := some 3,
    tipo_consulta := "consulta general", motivo := none, fecha_inicio := 600,
    duracion_min := 30, estado := "completada", created_by := some 3 }

/-- A store holding only the completed appointment. -/
def dbCompletada : DB :=
  { mascotas := [{ id := 1, owner_id := 2 }],
    usuarios := [{ id := 3, role := "admin" }],
    citas := [citaCompletada] }

/-- A store with one pet (owner 2), one veterinarian (admin user 3) and no
appointments. -/
def dbVet : DB :=
  { mascotas := [{ id := 1, owner_id := 2 }],
    usuarios := [{ id := 3, role := "admin" }],
    citas := [] }

/-- A create request for an `urgencia` without an explicit duration. -/
def reqUrgencia : CreateReq :=
  { mascota_id := some 1, propietario_id := some 2, veterinario_id := some 3,
    tipo_consulta := some "urgencia", motivo := none, fecha_inicio := some 600,
    duracion_min := none, buffer_min := none }

/-- The same create request carrying an explicit zero buffer. -/
def reqBufferCero : CreateReq := { reqUrgencia with buffer_min := some 0 }

/-- A 10:00 appointment of veterinarian 3. -/
def citaVetTres : Cita :=
  { id := 2, mascota_id := 1, propietario_id := 9, veterinario_id := some 3,
    tipo_consulta := "consulta general", motivo := none, fecha_inicio := 600,
    duracion_min := 30, estado := "pendiente", created_by := none }

/-- A store in which pet 1 belongs to owner 9, and veterinarian 3 already
has a 10:00 appointment. -/
def dbOwnerMismatch : DB :=
  { mascotas := [{ id := 1, owner_id := 9 }],
    usuarios := [{ id := 3, role := "admin" }],
    citas := [citaVetTres] }

/-- A create request naming pet 1 but owner 2 (the pet belongs to 9 in
`dbOwnerMismatch`), for the already-busy veterinarian and time. -/
def reqMismatch : CreateReq :=
  { mascota_id := some 1, propietario_id := some 2, veterinario_id := some 3,
    tipo_consulta := none, motivo := none, fecha_inicio := some 600,
    duracion_min := some 30, buffer_min := none }

/-- A pending appointment, id 1, with no veterinarian. -/
def citaPendiente : Cita :=
  { id := 1, mascota_id := 1, propietario_id := 2, veterinario_id := none,
    tipo_consulta := "consulta general", motivo := none, fecha_inicio := 600,
    duracion_min := 30, estado := "pendiente", created_by := none }

/-- A store holding only the pending appointment. -/
def dbUna : DB :=
  { mascotas := [{ id := 1, owner_id := 2 }],
    usuarios := [{ id := 3, role := "admin" }],
    citas := [citaPendiente] }

/-- An update request whose only field is the unknown status label
`"archivada"`. -/
def reqEstadoLibre : UpdateReq :=
  { mascota_id := none, propietario_id := none, veterinario_id := none,
    tipo_consulta := none, motivo := none, fecha_inicio := none,
    duracion_min := none, buffer_min := none, estado := some "archivada" }

/-- The slot starts a veterinarian receives for `vacunacion` on a day with
no appointments: every 20 minutes from 08:00 within 08:00–12:30, then
every 20 minutes from 14:00 within 14:00–17:00. -/
def vacunacionSlots : List Int :=
  [480, 500, 520, 540, 560, 580, 600, 620, 640, 660, 680, 700, 720,
   840, 860, 880, 900, 920, 940, 960, 980, 1000]

/-! Helper lemmas about the cursor walk and the catalog. -/

/-- The fuel argument of `slotLoop` is irrelevant once it bounds the
remaining cursor range (each iteration advances the cursor by at least one
minute when `0 < d`). -/
theorem slotLoop_fuel_congr (citas : List (Int × Int)) (d lastStart : Int)
    (hd : 0 < d) :
    ∀ (n m : Nat) (t : Int), (lastStart + 1 - t).toNat ≤ n →
      (lastStart + 1 - t).toNat ≤ m →
      slotLoop citas d lastStart n t = slotLoop citas d lastStart m t := by
  intro n
  induction n with
  | zero =>
    intro m t hn hm
    have ht : ¬ t ≤ lastStart := by omega
    cases m with
    | zero => rfl
    | succ m => simp [slotLoop, ht]
  | succ n ih =>
    intro m t hn hm
    by_cases ht : t ≤ lastStart
    · cases m with
      | zero => omega
      | succ m =>
        simp only [slotLoop, if_pos ht]
        by_cases hc : (citas.any fun c => overlaps t (t + d) c.1 c.2) = true
        · rw [if_pos hc, if_pos hc]
          exact ih m (t + 15) (by omega) (by omega)
        · rw [if_neg hc, if_neg hc, ih m (t + d) (by omega) (by omega)]
    · cases m with
      | zero => simp [slotLoop, ht]
      | succ m => simp [slotLoop, ht]

/-- Unfolding equation of `slotWalk`: it satisfies exactly the `while`
loop recurrence of `generateSlotsNode`. -/
theorem slotWalk_eq (citas : List (Int × Int)) (d lastStart : Int)
    (hd : 0 < d) (t : Int) :
    slotWalk citas d lastStart t =
      if t ≤ lastStart then
        if citas.any (fun c => overlaps t (t + d) c.1 c.2) then
          slotWalk citas d lastStart (t + 15)
        else t :: slotWalk citas d lastStart (t + d)
      else [] := by
  unfold slotWalk
  by_cases ht : t ≤ lastStart
  · have h1 : (lastStart + 1 - t).toNat = (lastStart - t).toNat + 1 := by omega
    rw [h1]
    simp only [slotLoop, if_pos ht]
    by_cases hc : (citas.any fun c => overlaps t (t + d) c.1 c.2) = true
    · rw [if_pos hc, if_pos hc]
      exact slotLoop_fuel_congr citas d lastStart hd _ _ (t + 15)
        (by omega) (le_refl _)
    · rw [if_neg hc, if_neg hc, slotLoop_fuel_congr citas d lastStart hd _ _
        (t + d) (by omega) (le_refl _)]
  · have h0 : (lastStart + 1 - t).toNat = 0 := by omega
    rw [h0, if_neg ht]
    rfl

/-- Every slot emitted by the walk starts at or after the cursor. -/
theorem mem_slotLoop_lb (citas : List (Int × Int)) (d lastStart : Int)
    (hd : 0 ≤ d) :
    ∀ (fuel : Nat) (t s : Int),
      s ∈ slotLoop citas d lastStart fuel t → t ≤ s := by
  intro fuel
  induction fuel with
  | zero => intro t s h; simp [slotLoop] at h
  | succ n ih =>
    intro t s h
    simp only [slotLoop] at h
    split at h
    · split at h
      · have := ih (t + 15) s h; omega
      · rcases List.mem_cons.mp h with rfl | h'
        · exact le_refl s
        · have := ih (t + d) s h'; omega
    · simp at h

/-- Every slot emitted by the walk starts no later than `lastStart`. -/
theorem mem_slotLoop_ub (citas : List (Int × Int)) (d lastStart : Int) :
    ∀ (fuel : Nat) (t s : Int),
      s ∈ slotLoop citas d lastStart fuel t → s ≤ lastStart := by
  intro fuel
  induction fuel with
  | zero => intro t s h; simp [slotLoop] at h
  | succ n ih =>
    intro t s h
    simp only [slotLoop] at h
    split at h
    · split at h
      · exact ih (t + 15) s h
      · rcases List.mem_cons.mp h with rfl | h'
        · assumption
        · exact ih (t + d) s h'
    · simp at h

/-- Consecutive slots emitted by the walk are at least a full duration
apart: accepting a slot advances the cursor by `d`. -/
theorem slotLoop_sep (citas : List (Int × Int)) (d lastStart : Int)
    (hd : 0 ≤ d) :
    ∀ (fuel : Nat) (t : Int),
      List.Pairwise (fun a b => a + d ≤ b)
        (slotLoop citas d lastStart fuel t) := by
  intro fuel
  induction fuel with
  | zero => intro t; simp [slotLoop]
  | succ n ih =>
    intro t
    simp only [slotLoop]
    split
    · split
      · exact ih (t + 15)
      · refine List.Pairwise.cons (fun b hb => ?_) (ih (t + d))
        have := mem_slotLoop_lb citas d lastStart hd n (t + d) b hb
        omega
    · exact List.Pairwise.nil

/-- Bounds for the slots of one operating window: clipped window start and
last feasible start. -/
theorem mem_slotsForWindow (citas : List (Int × Int)) (d : Int)
    (hd : 0 ≤ d) (w : Window) (s : Int) (h : s ∈ slotsForWindow citas d w) :
    max clinicOpen w.wfrom ≤ s ∧ s ≤ min clinicClose w.wto - d := by
  simp only [slotsForWindow] at h
  split at h
  · simp at h
  · exact ⟨mem_slotLoop_lb citas d _ hd _ _ s h,
      mem_slotLoop_ub citas d _ _ _ s h⟩

/-- Slots of one window are at least a duration apart. -/
theorem slotsForWindow_sep (citas : List (Int × Int)) (d : Int)
    (hd : 0 ≤ d) (w : Window) :
    List.Pairwise (fun a b => a + d ≤ b) (slotsForWindow citas d w) := by
  simp only [slotsForWindow]
  split
  · exact List.Pairwise.nil
  · exact slotLoop_sep citas d _ hd _ _

/-- Every catalog duration is at least 15 minutes (so the cursor always
advances). -/
theorem getDurationForTipo_ge (t : String) : 15 ≤ getDurationForTipo t := by
  simp only [getDurationForTipo]
  repeat' split
  all_goals decide

/-- For every appointment type, the clipped operating windows appear in
order and do not overlap: the (clipped) close of an earlier window is at
or before the (clipped) open of a later one. -/
theorem getWindowsForTipo_sep (t : String) :
    List.Pairwise
      (fun w1 w2 => min clinicClose w1.wto ≤ max clinicOpen w2.wfrom)
      (getWindowsForTipo t) := by
  simp only [getWindowsForTipo]
  repeat' split
  all_goals decide

/-- Pairwise property of a `flatMap` from per-chunk and cross-chunk
pairwise properties. -/
theorem pairwise_flatMap_of {α β : Type} {R : β → β → Prop}
    (f : α → List β) :
    ∀ (l : List α), (∀ a ∈ l, List.Pairwise R (f a)) →
      List.Pairwise (fun a b => ∀ x ∈ f a, ∀ y ∈ f b, R x y) l →
      List.Pairwise R (l.flatMap f)
  | [], _, _ => by simp
  | a :: l, h1, h2 => by
    rw [List.flatMap_cons]
    refine List.pairwise_append.mpr
      ⟨h1 a (List.mem_cons_self a l),
       pairwise_flatMap_of f l (fun b hb => h1 b (List.mem_cons_of_mem a hb))
         h2.of_cons, ?_⟩
    intro x hx y hy
    obtain ⟨b, hb, hyb⟩ := List.mem_flatMap.mp hy
    exact (List.pairwise_cons.mp h2).1 b hb x hx y hyb

/-- The full per-veterinarian slot list keeps consecutive slots at least a
full duration apart, across windows as well. -/
theorem slotsForVet_sep (tipo : String) (vetCitas : List (Int × Int)) :
    List.Pairwise (fun a b => a + getDurationForTipo tipo ≤ b)
      (slotsForVet tipo vetCitas) := by
  have hd : (0 : Int) ≤ getDurationForTipo tipo := by
    have := getDurationForTipo_ge tipo; omega
  have hflat : List.Pairwise (fun a b => a + getDurationForTipo tipo ≤ b)
      ((getWindowsForTipo tipo).flatMap
        (fun w => slotsForWindow vetCitas (getDurationForTipo tipo) w)) := by
    refine pairwise_flatMap_of _ _
      (fun w _ => slotsForWindow_sep vetCitas _ hd w) ?_
    refine (getWindowsForTipo_sep tipo).imp ?_
    intro w1 w2 hsep x hx y hy
    have hxb := mem_slotsForWindow vetCitas _ hd w1 x hx
    have hyb := mem_slotsForWindow vetCitas _ hd w2 y hy
    omega
  unfold slotsForVet sortSlots
  rw [List.Sorted.insertionSort_eq (hflat.imp (fun h => by omega))]
  exact hflat

/-- Characterization of `_hasOverlap` as the existence of a row of the
same veterinarian, not excluded, satisfying the buffered comparison of the
SQL `WHERE` clause. -/
theorem hasOverlap_iff (citas : List Cita) (v : Nat) (s dm b : Int)
    (ex : Option Nat) :
    hasOverlap citas (some v) s dm ex b = true ↔
      ∃ c ∈ citas, c.veterinario_id = some v ∧
        s < c.fecha_inicio + c.duracion_min + b ∧
        c.fecha_inicio < s + dm + b ∧ notExcluded ex c = true := by
  simp [hasOverlap, Bool.and_eq_true, decide_eq_true_iff, and_assoc]

/-! Claim theorems. -/

/-- C1, counterexample: an appointment whose `estado` is `'cancelada'`
does cause `_hasOverlap` to report a conflict — the overlap query has no
status filter, so the claim that cancelled appointments never trigger the
conflict check is false on this input. -/
theorem C1_counterexample :
    citaCancelada.estado = "cancelada" ∧
    hasOverlap [citaCancelada] (some 5) 600 30 none 10 = true := by
  decide

/-- C1, amended: cancelled appointments are excluded from the slot
generator — the `GET /citas/slots` query filters `estado != 'cancelada'`
before `generateSlotsNode` runs, so a cancelled appointment never
suppresses a slot — but `_hasOverlap` reads every row of the same
veterinarian regardless of its `estado` (its outcome is invariant under
arbitrarily rewriting every row's status), so a cancelled appointment does
cause conflicts there. -/
theorem C1_amended :
    (∀ (dayCitas : List Cita) (tipo : String) (vets : List Nat) (c : Cita),
        c.estado = "cancelada" →
        getSlots (c :: dayCitas) tipo vets = getSlots dayCitas tipo vets)
    ∧ (∀ (citas : List Cita) (f : Cita → String) (v : Option Nat)
        (s dm b : Int) (ex : Option Nat),
        hasOverlap (citas.map (fun c => { c with estado := f c })) v s dm ex b
          = hasOverlap citas v s dm ex b) := by
  constructor
  · intro dayCitas tipo vets c hc
    unfold getSlots
    congr 1
    simp [List.filter_cons, hc]
  · intro citas f v s dm b ex
    cases v with
    | none => rfl
    | some v =>
      simp only [hasOverlap, List.any_map]
      rfl

/-- C1 witness: the amended theorem applied at a cancelled appointment and
a concrete slot query. -/
theorem C1_amended_witness :
    getSlots [citaCancelada] "vacunacion" [5] = getSlots [] "vacunacion" [5] :=
  C1_amended.1 [] "vacunacion" [5] citaCancelada rfl

/-- C2: the buffered conflict rule.  (1) `_hasOverlap` reports a conflict
iff some non-excluded appointment `E` of the veterinarian satisfies
`s < E.start + E.duration + buffer` and `E.start < s + duration + buffer`;
(2) a candidate starting `gap` minutes after an appointment's end with
`0 ≤ gap < buffer` conflicts; (3) against the single 10:00–10:30
appointment with buffer 10, a candidate at 10:35 (minute 635) of any
positive duration conflicts, and (4) one at 10:40 (minute 640) of 30
minutes does not. -/
theorem C2_hasOverlap_buffer_rule :
    (∀ (citas : List Cita) (v : Nat) (s dm b : Int) (ex : Option Nat),
        hasOverlap citas (some v) s dm ex b = true ↔
          ∃ c ∈ citas, c.veterinario_id = some v ∧
            s < c.fecha_inicio + c.duracion_min + b ∧
            c.fecha_inicio < s + dm + b ∧ notExcluded ex c = true)
    ∧ (∀ (A : Cita) (v : Nat) (dB b gap : Int), A.veterinario_id = some v →
        0 < A.duracion_min → 0 < dB → 0 ≤ gap → gap < b →
        hasOverlap [A] (some v) (A.fecha_inicio + A.duracion_min + gap)
          dB none b = true)
    ∧ (∀ d : Int, 0 < d → hasOverlap [citaDiez] (some 1) 635 d none 10 = true)
    ∧ hasOverlap [citaDiez] (some 1) 640 30 none 10 = false := by
  refine ⟨hasOverlap_iff, ?_, ?_, by decide⟩
  · intro A v dB b gap hv hA hdB hgap hlt
    refine (hasOverlap_iff [A] v _ dB b none).mpr
      ⟨A, List.mem_cons_self A [], hv, by omega, by omega, rfl⟩
  · intro d hd
    refine (hasOverlap_iff [citaDiez] 1 635 d 10 none).mpr
      ⟨citaDiez, List.mem_cons_self citaDiez [], rfl, by decide, ?_, rfl⟩
    show (600 : Int) < 635 + d + 10
    omega

/-- C2 witness: the 10:35 candidate with duration 20 conflicts. -/
theorem C2_witness : hasOverlap [citaDiez] (some 1) 635 20 none 10 = true :=
  C2_hasOverlap_buffer_rule.2.2.1 20 (by decide)

/-- C3, counterexample: a `completada` appointment is not terminal — an
admin `changeStatus` to `'pendiente'` succeeds and overwrites the stored
status, refuting the claim that every transition attempt out of a terminal
status is rejected and leaves the status unchanged. -/
theorem C3_counterexample :
    citaCompletada.estado = "completada" ∧
    changeStatus dbCompletada adminUser 1 (some "pendiente")
      = StatusResult.updated { citaCompletada with estado := "pendiente" } := by
  decide

/-- C3, amended: no status-transition guard exists.  `confirm` and
`complete` overwrite the stored status unconditionally (after the fetch
and permission checks), `changeStatus` stores any of the four known labels
without consulting the current status, and only a label outside the four
known states is rejected; `completada` and `cancelada` are not terminal. -/
theorem C3_amended :
    (∀ (db : DB) (u : Actor) (id : Nat) (c : Cita),
        db.citas.find? (fun x => x.id == id) = some c → canTouch u c = true →
        confirm db u id = StatusResult.updated { c with estado := "confirmada" })
    ∧ (∀ (db : DB) (u : Actor) (id : Nat) (c : Cita),
        db.citas.find? (fun x => x.id == id) = some c → canTouch u c = true →
        complete db u id = StatusResult.updated { c with estado := "completada" })
    ∧ (∀ (db : DB) (u : Actor) (id : Nat) (c : Cita) (e : String),
        db.citas.find? (fun x => x.id == id) = some c → canTouch u c = true →
        allowedEstados.contains e = true →
        changeStatus db u id (some e) = StatusResult.updated { c with estado := e })
    ∧ (∀ (db : DB) (u : Actor) (id : Nat) (e : String),
        allowedEstados.contains e = false →
        changeStatus db u id (some e) = StatusResult.badRequest) := by
  refine ⟨?_, ?_, ?_, ?_⟩
  · intro db u id c hfind hcan
    unfold confirm
    rw [hfind]
    simp [hcan]
  · intro db u id c hfind hcan
    unfold complete
    rw [hfind]
    simp [hcan]
  · intro db u id c e hfind hcan hallowed
    unfold changeStatus
    dsimp only
    rw [hallowed, hfind]
    simp [hcan]
  · intro db u id e hallowed
    unfold changeStatus
    dsimp only
    rw [hallowed]
    simp

/-- C3 witness: the amended theorem applied to the completed appointment:
`changeStatus` to `'cancelada'` goes through. -/
theorem C3_amended_witness :
    changeStatus dbCompletada adminUser 1 (some "cancelada")
      = StatusResult.updated { citaCompletada with estado := "cancelada" } :=
  C3_amended.2.2.1 dbCompletada adminUser 1 citaCompletada "cancelada"
    (by decide) (by decide) (by decide)

/-- C4: the slot generation algorithm.  (1) A window whose
`lastStart = windowEnd − duration` (after clipping to clinic hours) falls
before the window start yields no slots; (2) otherwise the window's slots
are the cursor walk from the clipped window start; (3) the walk satisfies
the loop recurrence: test the candidate `[t, t + duration)` against the
practitioner's intervals with the plain unbuffered `overlaps`, on
acceptance emit and advance by the full duration, on conflict advance by
the fixed 15-minute step; (4) each practitioner's emitted list is sorted
chronologically. -/
theorem C4_slot_generation_algorithm :
    (∀ (citas : List (Int × Int)) (d : Int) (w : Window),
        min clinicClose w.wto - d < max clinicOpen w.wfrom →
        slotsForWindow citas d w = [])
    ∧ (∀ (citas : List (Int × Int)) (d : Int) (w : Window),
        ¬ (min clinicClose w.wto - d < max clinicOpen w.wfrom) →
        slotsForWindow citas d w
          = slotWalk citas d (min clinicClose w.wto - d) (max clinicOpen w.wfrom))
    ∧ (∀ (citas : List (Int × Int)) (d lastStart t : Int), 0 < d →
        slotWalk citas d lastStart t =
          if t ≤ lastStart then
            if citas.any (fun c => overlaps t (t + d) c.1 c.2) then
              slotWalk citas d lastStart (t + 15)
            else t :: slotWalk citas d lastStart (t + d)
          else [])
    ∧ (∀ (tipo : String) (vetCitas : List (Int × Int)),
        List.Pairwise (fun a b => a ≤ b) (slotsForVet tipo vetCitas)) := by
  refine ⟨?_, ?_, ?_, ?_⟩
  · intro citas d w h
    simp only [slotsForWindow]
    rw [if_pos h]
  · intro citas d w h
    simp only [slotsForWindow]
    rw [if_neg h]
  · intro citas d last t hd
    exact slotWalk_eq citas d last hd t
  · intro tipo vetCitas
    have hd := getDurationForTipo_ge tipo
    exact (slotsForVet_sep tipo vetCitas).imp (fun h => by omega)

/-- C4 witness: a concrete empty window (surgery-length duration in a
clipped window too short for it) and a concrete exhausted walk. -/
theorem C4_witness :
    slotsForWindow [] 700 ⟨480, 750⟩ = [] ∧ slotWalk [] 20 730 735 = [] :=
  ⟨C4_slot_generation_algorithm.1 [] 700 ⟨480, 750⟩ (by decide),
   by rw [C4_slot_generation_algorithm.2.2.1 [] 20 730 735 (by decide)]; rfl⟩

/-- C5: the empty vaccination day scenario.  Duration resolves to 20; for
every practitioner list the slot query on a day with no appointments
returns, per practitioner, exactly the 08:00-started 20-minute grid of
each window; the first two slots are 08:00 and 08:20; and every slot ends
inside its window (by 12:30 in the morning window, by 17:00 in the
afternoon one). -/
theorem C5_vaccination_empty_day :
    getDurationForTipo "vacunacion" = 20
    ∧ (∀ (vets : List Nat),
        getSlots [] "vacunacion" vets
          = vets.map (fun v => (v, vacunacionSlots)))
    ∧ vacunacionSlots.head? = some 480
    ∧ vacunacionSlots.get? 1 = some 500
    ∧ (∀ s ∈ vacunacionSlots,
        (480 ≤ s ∧ s + 20 ≤ 750) ∨ (840 ≤ s ∧ s + 20 ≤ 1020)) := by
  refine ⟨by decide, ?_, by decide, by decide, by decide⟩
  intro vets
  have h0 : slotsForVet "vacunacion" [] = vacunacionSlots := by decide
  have h : ∀ v : Nat,
      slotsForVet "vacunacion" (vetCitasIntervals [] v) = vacunacionSlots :=
    fun _ => h0
  simp [getSlots, generateSlotsNode, h]

/-- C5 witness: the slot list evaluated for one practitioner, and the
window-bound property at the first slot. -/
theorem C5_witness :
    getSlots [] "vacunacion" [1] = [(1, vacunacionSlots)]
    ∧ ((480 ≤ (480:Int) ∧ (480:Int) + 20 ≤ 750) ∨ (840 ≤ (480:Int) ∧ (480:Int) + 20 ≤ 1020)) :=
  ⟨C5_vaccination_empty_day.2.1 [1],
   C5_vaccination_empty_day.2.2.2.2 480 (by decide)⟩

/-- C6: for every appointment type, practitioner list and set of existing
appointments, the slot generator never emits two slots for the same
practitioner whose `[start, start + duration)` intervals overlap in the
sense of `overlaps` (in either order). -/
theorem C6_no_overlapping_slots :
    ∀ (tipo : String) (vetList : List Nat) (existing : List Cita)
      (v : Nat) (slots : List Int),
      (v, slots) ∈ generateSlotsNode tipo vetList existing →
      List.Pairwise (fun a b =>
        overlaps a (a + getDurationForTipo tipo)
          b (b + getDurationForTipo tipo) = false ∧
        overlaps b (b + getDurationForTipo tipo)
          a (a + getDurationForTipo tipo) = false) slots := by
  intro tipo vetList existing v slots hmem
  simp only [generateSlotsNode, List.mem_map] at hmem
  obtain ⟨u, hu, heq⟩ := hmem
  obtain ⟨rfl, rfl⟩ := Prod.mk.injEq .. |>.mp heq
  refine (slotsForVet_sep tipo (vetCitasIntervals existing u)).imp ?_
  intro a b h
  constructor <;> simp only [overlaps, Bool.and_eq_false_iff,
    decide_eq_false_iff_not] <;> omega

/-- C6 witness: the pairwise non-overlap property evaluated on the
vaccination grid emitted for practitioner 1 on an empty day. -/
theorem C6_witness :
    List.Pairwise (fun a b =>
      overlaps a (a + getDurationForTipo "vacunacion")
        b (b + getDurationForTipo "vacunacion") = false ∧
      overlaps b (b + getDurationForTipo "vacunacion")
        a (a + getDurationForTipo "vacunacion") = false) vacunacionSlots :=
  C6_no_overlapping_slots "vacunacion" [1] [] 1 vacunacionSlots (by decide)

/-- C7, counterexample: a create request of type `urgencia` without
`duracion_min` persists duration 30, not the catalog default 60 — `create`
defaults to the flat literal 30 and never consults `getDurationForTipo`. -/
theorem C7_counterexample :
    getDurationForTipo "urgencia" = 60 ∧
    create dbVet adminUser reqUrgencia 1 = CreateResult.created
      { id := 1, mascota_id := 1, propietario_id := 2, veterinario_id := some 3,
        tipo_consulta := "urgencia", motivo := none, fecha_inicio := 600,
        duracion_min := 30, estado := "pendiente", created_by := some 3 } := by
  decide

/-- C7, amended: whenever `create` persists a row, its duration is the
explicit `duracion_min` when supplied and the flat default 30 otherwise,
regardless of the appointment type; the catalog defaults are used only by
the slot generator. -/
theorem C7_amended :
    ∀ (db : DB) (u : Actor) (req : CreateReq) (newId : Nat) (c : Cita),
      create db u req newId = CreateResult.created c →
      c.duracion_min = (match req.duracion_min with
        | some n => n
        | none => 30) := by
  intro db u req newId c h
  simp only [create] at h
  repeat' split at h
  all_goals simp_all
  all_goals (subst h; rfl)

/-- C7 witness: the amended theorem at an explicit 45-minute request. -/
theorem C7_amended_witness :
    (Cita.mk 1 1 2 (some 3) "urgencia" none 600 45 "pendiente"
      (some 3)).duracion_min = 45 :=
  C7_amended dbVet adminUser { reqUrgencia with duracion_min := some 45 } 1
    (Cita.mk 1 1 2 (some 3) "urgencia" none 600 45 "pendiente" (some 3))
    (by decide)

/-- C8, counterexample: a create request carrying `buffer_min = 0` is not
rejected — it sails through validation, the overlap check runs with the
zero buffer, and the appointment is persisted, refuting the claim that a
zero buffer fails validation before the overlap check. -/
theorem C8_counterexample :
    reqBufferCero.buffer_min = some 0 ∧
    create dbVet adminUser reqBufferCero 1 = CreateResult.created
      { id := 1, mascota_id := 1, propietario_id := 2, veterinario_id := some 3,
        tipo_consulta := "urgencia", motivo := none, fecha_inicio := 600,
        duracion_min := 30, estado := "pendiente", created_by := some 3 } := by
  decide

/-- C8, amended: the resolved duration must be positive — every row
`create` or `update` persists has a positive duration, and whenever the
overlap check even runs in `create` (a conflict is reported) the resolved
duration was already positive — but the buffer is never validated: the
`badRequest` outcomes of `create` are independent of the `buffer_min`
value, so a zero or negative buffer is accepted and fed to the overlap
check. -/
theorem C8_amended :
    (∀ (db : DB) (u : Actor) (req : CreateReq) (newId : Nat) (c : Cita),
        create db u req newId = CreateResult.created c → 0 < c.duracion_min)
    ∧ (∀ (db : DB) (u : Actor) (req : CreateReq) (newId : Nat),
        create db u req newId = CreateResult.conflict →
        0 < (match req.duracion_min with | some n => n | none => 30))
    ∧ (∀ (db : DB) (u : Actor) (id : Nat) (req : UpdateReq) (c : Cita),
        update db u id req = UpdateResult.updated c → 0 < c.duracion_min)
    ∧ (∀ (db : DB) (u : Actor) (req : CreateReq) (newId : Nat)
        (b b' : Option Int) (m : String),
        create db u { req with buffer_min := b } newId
          = CreateResult.badRequest m →
        create db u { req with buffer_min := b' } newId
          = CreateResult.badRequest m) := by
  refine ⟨?_, ?_, ?_, ?_⟩
  · intro db u req newId c h
    simp only [create] at h
    repeat' split at h
    all_goals simp_all
    all_goals (subst h; simp_all)
  · intro db u req newId h
    simp only [create] at h
    repeat' split at h
    all_goals simp_all
  · intro db u id req c h
    simp only [update] at h
    repeat' split at h
    all_goals simp_all
    all_goals (subst h; simp_all)
  · intro db u req newId b b' m h
    simp only [create] at h ⊢
    repeat' split at h
    all_goals simp_all

/-- C8 witness: a zero duration is rejected before anything else can
happen, and the rejection is unchanged when the buffer value changes. -/
theorem C8_amended_witness :
    create dbVet adminUser
      { { reqUrgencia with duracion_min := some 0 } with buffer_min := some (-5) } 1
      = CreateResult.badRequest "duracion_min inválida" :=
  C8_amended.2.2.2 dbVet adminUser { reqUrgencia with duracion_min := some 0 } 1
    (some 0) (some (-5)) "duracion_min inválida" (by decide)

/-- C9: a create request naming a pet whose stored owner differs from the
supplied owner fails with the ownership-mismatch message for every store
state — in particular regardless of the `citas` table, so before and
instead of any conflict verdict — and persists nothing (the outcome is not
`created`). -/
theorem C9_ownership_before_conflict :
    ∀ (db : DB) (u : Actor) (req : CreateReq) (newId mid pid : Nat)
      (m : Mascota),
      req.mascota_id = some mid → mid ≠ 0 →
      req.propietario_id = some pid → pid ≠ 0 →
      req.fecha_inicio.isSome = true →
      db.mascotas.find? (fun x => x.id == mid) = some m →
      m.owner_id ≠ pid →
      create db u req newId
        = CreateResult.badRequest
            "La mascota no pertenece al propietario indicado" := by
  intro db u req newId mid pid m h1 h2 h3 h4 h5 h6 h7
  simp [create, h1, h3, truthyN, h2, h4, h5, h6, h7]

/-- C9 witness: the ownership mismatch at a store whose veterinarian 3 is
busy at the requested 10:00 — the outcome is still the ownership error,
not a conflict. -/
theorem C9_witness :
    create dbOwnerMismatch adminUser reqMismatch 1
      = CreateResult.badRequest
          "La mascota no pertenece al propietario indicado" :=
  C9_ownership_before_conflict dbOwnerMismatch adminUser reqMismatch 1 1 2
    { id := 1, owner_id := 9 } rfl (by decide) rfl (by decide) rfl (by decide)
    (by decide)

/-- C10: the field-merge `update` persists any truthy `estado` string
without checking it against the four known states — here the stored status
becomes `"archivada"`, outside the enum — while the dedicated
`changeStatus` rejects the same unknown label. -/
theorem C10_update_estado_unchecked :
    update dbUna adminUser 1 reqEstadoLibre
      = UpdateResult.updated { citaPendiente with estado := "archivada" }
    ∧ allowedEstados.contains "archivada" = false
    ∧ changeStatus dbUna adminUser 1 (some "archivada")
        = StatusResult.badRequest := by
  decide

end Citas
